import Mathlib

/-!
# SimplyTransport GTFS import pipeline — verification of the CLI orchestrator

Shallow embedding of `SimplyTransport/cli.py` (the `importgtfs` and
`importrealtime` commands and `gtfs_directory_validator`).  Filesystem
probes, importer behaviour and realtime fetch results are supplied by
explicit environments; console printing is elided; uncaught Python
exceptions are modelled as an `Option String` outcome (`some msg` means an
exception with message `msg` escaped the command); externally visible
persistence calls and event recordings are collected in a trace.
-/

namespace SimplyTransport

/-- The fixed ordered file list of `importgtfs` (cli.py lines 108-117). -/
def files_to_import : List String :=
  ["agency.txt", "calendar.txt", "calendar_dates.txt", "routes.txt",
   "stops.txt", "trips.txt", "stop_times.txt", "shapes.txt"]

/-- Replaces every leftmost, non-overlapping occurrence of `.txt` in a
character sequence with nothing, as Python `str.replace(".txt", "")`
does. -/
def stripTxtAll : List Char → List Char
  | '.' :: 't' :: 'x' :: 't' :: rest => stripTxtAll rest
  | c :: cs => c :: stripTxtAll cs
  | [] => []

/-- `file.replace(".txt", "")`, the per-file key used in the report dict. -/
def baseName (file : String) : String :=
  String.mk (stripTxtAll file.toList)

/-- One per-file report entry as built by `importgtfs`: the dict values
`time_taken(s)`, `row_count` and the optional `error` string. -/
structure FileReportEntry where
  time_taken_s : Nat
  row_count : Nat
  err : Option String
deriving DecidableEq, Repr

/-- Attribute values of the structured attribute bag handed to
`create_event_with_session`: a JSON-like tree of numbers, strings and
string-keyed objects, mirroring the Python dict literals in cli.py. -/
inductive AttrValue where
  | nat (n : Nat)
  | str (s : String)
  | obj (kvs : List (String × AttrValue))
deriving Repr

/-- The top-level keys of an object attribute value, in insertion order. -/
def AttrValue.objKeys : AttrValue → List String
  | .obj kvs => kvs.map Prod.fst
  | _ => []

/-- Look up a key in an object attribute value. -/
def AttrValue.find (key : String) : AttrValue → Option AttrValue
  | .obj kvs => (kvs.find? (fun kv => kv.1 = key)).map Prod.snd
  | _ => none

/-- Externally visible persistence / notification operations performed by
the two import commands, recorded in order of invocation. -/
inductive Op where
  | clearTable (file : String)
  | importData (file : String)
  | clearStopTrip
  | importStopTimes
  | importTrips
  | recordEvent (eventType : String)
deriving DecidableEq, Repr

/-- Environment of one static import run: the filesystem probes
(`os.path.exists`, `os.path.isfile`), the row count reported by the generic
reader, whether `get_importer_for_file` succeeds for a filename (it raises
`ValueError` otherwise), whether `clear_table()` / `import_data()` raise
(the exception message if so), and the rounded elapsed time of a successful
per-file import. -/
structure StaticEnv where
  fsExists : String → Bool
  fsIsFile : String → Bool
  rowCount : String → Nat
  supported : String → Bool
  clearErr : String → Option String
  convErr : String → Option String
  duration : String → Nat

/-- Mutable state of `importgtfs` while it runs: the accumulating
`attributes_of_total_rows` dict (insertion-ordered association list), the
running `total_time_taken`, the local variable `finish` (assigned only on
the per-file success path, hence `Option`), the trace of persistence
operations, and the recorded events. -/
structure StStatic where
  totals : List (String × FileReportEntry)
  total_time : Nat
  finish : Option Nat
  trace : List Op
  events : List (String × AttrValue)
deriving Repr

/-- The state of `importgtfs` when the per-file loop starts. -/
def initStatic : StStatic :=
  { totals := [], total_time := 0, finish := none, trace := [], events := [] }

/-- The path probed for a file (cli.py line 125): plain string
concatenation `dir + file`. -/
def file_probe (dir file : String) : String :=
  dir ++ file

/-- The body of the `for file in files_to_import` loop (cli.py lines
123-169) for a single file.  The second component is `some msg` when an
uncaught exception escaped the iteration (only `clear_table()` and
`import_data()` can raise uncaught here; `ValueError` from
`get_importer_for_file` is caught and turned into a report entry). -/
def stepFile (env : StaticEnv) (dir : String) (s : StStatic) (file : String) :
    StStatic × Option String :=
  if !(env.fsExists dir && env.fsIsFile (file_probe dir file)) then
    ({ s with totals := s.totals ++
        [(baseName file,
          { time_taken_s := 0, row_count := 0,
            err := some ("File " ++ file ++ " does not exist.") })] }, none)
  else if !(env.supported file) then
    ({ s with totals := s.totals ++
        [(baseName file,
          { time_taken_s := 0, row_count := env.rowCount file,
            err := some ("File " ++ file ++ " does not have a supported importer.") })] },
     none)
  else
    match env.clearErr file with
    | some msg => ({ s with trace := s.trace ++ [Op.clearTable file] }, some msg)
    | none =>
      match env.convErr file with
      | some msg =>
          ({ s with trace := s.trace ++ [Op.clearTable file, Op.importData file] },
           some msg)
      | none =>
          ({ s with
              totals := s.totals ++
                [(baseName file,
                  { time_taken_s := env.duration file, row_count := env.rowCount file,
                    err := none })],
              total_time := s.total_time + env.duration file,
              finish := some 1,
              trace := s.trace ++ [Op.clearTable file, Op.importData file] }, none)

/-- The per-file loop: runs `stepFile` over the file list in order,
stopping early when an exception escapes an iteration. -/
def runLoop (env : StaticEnv) (dir : String) (s : StStatic) :
    List String → StStatic × Option String
  | [] => (s, none)
  | file :: fs =>
    match stepFile env dir s file with
    | (s', none) => runLoop env dir s' fs
    | (s', some msg) => (s', some msg)

/-- The attribute value built from one per-file report entry: the dict with
keys `time_taken(s)`, `row_count`, and `error` when present (cli.py lines
127-131, 143-147, 166-169). -/
def mkEntryVal (e : FileReportEntry) : AttrValue :=
  .obj (("time_taken(s)", .nat e.time_taken_s) ::
        ("row_count", .nat e.row_count) ::
        (match e.err with
         | none => []
         | some m => [("error", .str m)]))

/-- The attribute bag of the static-run event (cli.py lines 172-176):
`dataset`, `totals` (per-file dicts keyed by base name) and
`total_time_taken(s)`. -/
def mkStaticAttrs (dataset : String) (totals : List (String × FileReportEntry))
    (total_time : Nat) : AttrValue :=
  .obj [("dataset", .str dataset),
        ("totals", .obj (totals.map (fun kv => (kv.1, mkEntryVal kv.2)))),
        ("total_time_taken(s)", .nat total_time)]

/-- The message of the unbound-local exception raised by the final
`round(finish-start, 2)` when no file took the success path. -/
def unboundFinishMsg : String :=
  "UnboundLocalError: local variable finish referenced before assignment"

/-- The post-confirmation body of `importgtfs` (cli.py lines 108-184): the
per-file loop, then the event recording, then the final elapsed-time print
which reads the local `finish` (raising `UnboundLocalError` when it was
never assigned).  An exception escaping the loop propagates before the
event is recorded. -/
def runStatic (env : StaticEnv) (dir dataset : String) : StStatic × Option String :=
  match runLoop env dir initStatic files_to_import with
  | (s, some msg) => (s, some msg)
  | (s, none) =>
    let s' := { s with
      events := s.events ++
        [("GTFS_DATABASE_UPDATED", mkStaticAttrs dataset s.totals s.total_time)],
      trace := s.trace ++ [Op.recordEvent "GTFS_DATABASE_UPDATED"] }
    match s.finish with
    | none => (s', some unboundFinishMsg)
    | some _ => (s', none)

/-- A decoded GTFS-Realtime feed message as the caller sees it: cli.py only
reads `data["entity"]` for its length, so a feed is its entity list, each
entity left abstract. -/
structure Feed where
  entity : List Unit
deriving DecidableEq, Repr

/-- Environment of one realtime import run: the result of
`importer.get_data()` (`none` models the null returned when the HTTP
status is not 200 or decoding fails), and the counts returned by
`import_stop_times` / `import_trips` (their internals live outside this
repository slice). -/
structure RTEnv where
  getData : Option Feed
  stopTimesCount : Nat
  tripsCount : Nat

/-- Externally visible outcome of a realtime run: the operation trace and
the recorded events. -/
structure StRealtime where
  trace : List Op
  events : List (String × AttrValue)
deriving Repr

/-- The body of `importrealtime` after URL/key/dataset resolution (cli.py
lines 221-252): fetch, early return on null data, else clear both realtime
tables, import stop times, import trips, record the
`REALTIME_DATABASE_UPDATED` event.  `elapsed` abstracts
`round(finish - start, 2)`. -/
def runRealtime (env : RTEnv) (dataset : String) (elapsed : Nat) :
    StRealtime × Option String :=
  match env.getData with
  | none => ({ trace := [], events := [] }, none)
  | some _ =>
    let attrs : AttrValue :=
      .obj [("dataset", .str dataset),
            ("total_trips", .nat env.tripsCount),
            ("total_stop_times", .nat env.stopTimesCount),
            ("time_taken(s)", .nat elapsed)]
    ({ trace := [Op.clearStopTrip, Op.importStopTimes, Op.importTrips,
                 Op.recordEvent "REALTIME_DATABASE_UPDATED"],
       events := [("REALTIME_DATABASE_UPDATED", attrs)] }, none)

/-- `gtfs_directory_validator` (cli.py lines 18-29).  `dirArg = none`
models the click option being absent (Python `None`); `some ""` is also
falsy under Python `if dir:`.  `fsIsDir d` models
`os.path.exists(d) and os.path.isdir(d)`.  The invalid-directory branch
prints an error and falls through with no `return` value, i.e. returns
`None`. -/
def gtfs_directory_validator (fsIsDir : String → Bool) (dirArg : Option String) :
    Option String :=
  match dirArg with
  | some d =>
    if d ≠ "" then (if fsIsDir d then some d else none)
    else some "./gtfs_data/TFI/"
  | none => some "./gtfs_data/TFI/"

/-- Splits a character list at every `/`, keeping empty pieces, as Python
`str.split("/")` does on the underlying character sequence. -/
def splitSlashAux : List Char → List Char → List (List Char)
  | [], acc => [acc.reverse]
  | c :: cs, acc =>
    if c = '/' then acc.reverse :: splitSlashAux cs []
    else splitSlashAux cs (c :: acc)

/-- `dir.split("/")`: Python `str.split` on the one-character separator
`/` yields at least one piece and keeps empty pieces. -/
def dirSegments (d : String) : List String :=
  (splitSlashAux d.toList []).map (fun cs => String.mk cs)

/-- `dir_path[-2]` (cli.py line 97): Python negative indexing returns the
second-to-last element, and raises `IndexError` when the list has fewer
than two elements. -/
def dataset_of_dir (d : String) : Option String :=
  let parts := dirSegments d
  if h : 2 ≤ parts.length then
    some (parts.get ⟨parts.length - 2, by omega⟩)
  else none

/-- `importgtfs` end to end (cli.py lines 87-184): validate the directory
(calling `.split` on the validator result raises `AttributeError` when it
is `None`), derive the dataset from `dir_path[-2]`, prompt (any response
other than `"y"` aborts with no further work), then run the
post-confirmation body. -/
def importgtfs (fsIsDir : String → Bool) (env : StaticEnv)
    (dirArg : Option String) (response : String) : StStatic × Option String :=
  match gtfs_directory_validator fsIsDir dirArg with
  | none =>
    (initStatic, some "AttributeError: NoneType object has no attribute split")
  | some dir =>
    match dataset_of_dir dir with
    | none => (initStatic, some "IndexError: list index out of range")
    | some dataset =>
      if response ≠ "y" then (initStatic, none)
      else runStatic env dir dataset

/-- Modelled from the spec: `get_importer_for_file` lives in
`SimplyTransport/lib/gtfs_importers.py`, which is not part of this source
slice.  Per spec section 4.2 it dispatches by exact filename match against
the fixed table of eight supported static files and fails with
`UnsupportedFileType` (surfacing to the caller as `ValueError`) on any
other filename; the importer it returns exposes `clear_table` and
`import_data`, modelled here as its filename tag. -/
def get_importer_for_file (filename : String) : Except String String :=
  if filename ∈ files_to_import then .ok filename
  else .error "UnsupportedFileType"

/-- `stepFile` lets an exception escape exactly when the file is present on
disk, registry dispatch succeeds, and `clear_table()` or `import_data()`
raises. -/
def stepRaises (env : StaticEnv) (dir file : String) : Bool :=
  env.fsExists dir && env.fsIsFile (file_probe dir file) && env.supported file &&
    ((env.clearErr file).isSome || (env.convErr file).isSome)

/-- `stepFile` takes one of the two skip branches exactly when the file is
absent on disk or registry dispatch fails. -/
def stepSkips (env : StaticEnv) (dir file : String) : Bool :=
  !(env.fsExists dir && env.fsIsFile (file_probe dir file)) || !(env.supported file)

/-- The realtime persistence operations (table truncation and the two bulk
inserts). -/
def Op.isRealtimeWrite : Op → Bool
  | .clearStopTrip => true
  | .importStopTimes => true
  | .importTrips => true
  | _ => false

/-- A per-file entry of the event attribute bag has the success key set or
the key set with the extra `error` key, always in insertion order. -/
def entryKeysOk (v : AttrValue) : Prop :=
  v.objKeys = ["time_taken(s)", "row_count"] ∨
  v.objKeys = ["time_taken(s)", "row_count", "error"]

/-- Environment in which every filesystem probe fails and nothing is
supported: every file is skipped. -/
def envQuiet : StaticEnv :=
  { fsExists := fun _ => false, fsIsFile := fun _ => false,
    rowCount := fun _ => 0, supported := fun _ => false,
    clearErr := fun _ => none, convErr := fun _ => none,
    duration := fun _ => 0 }

/-- Environment of a directory containing only `agency.txt` (2 rows),
every importer healthy. -/
def envOnlyAgency : StaticEnv :=
  { fsExists := fun _ => true,
    fsIsFile := fun p => p = "./gtfs_data/TFI/agency.txt",
    rowCount := fun _ => 2, supported := fun _ => true,
    clearErr := fun _ => none, convErr := fun _ => none,
    duration := fun _ => 0 }

/-- Environment in which every file is present and supported but
`import_data()` raises a `RowConversionError` on `agency.txt`. -/
def envAgencyRowErr : StaticEnv :=
  { fsExists := fun _ => true, fsIsFile := fun _ => true,
    rowCount := fun _ => 2, supported := fun _ => true,
    clearErr := fun _ => none,
    convErr := fun f => if f = "agency.txt" then some "RowConversionError" else none,
    duration := fun _ => 0 }

/-- Environment in which every file is present and supported but
`clear_table()` raises on `agency.txt`. -/
def envAgencyClearErr : StaticEnv :=
  { fsExists := fun _ => true, fsIsFile := fun _ => true,
    rowCount := fun _ => 100, supported := fun _ => true,
    clearErr := fun f => if f = "agency.txt" then some "DatabaseError" else none,
    convErr := fun _ => none,
    duration := fun _ => 1 }

/-- Environment in which all files are present but registry dispatch fails
for `routes.txt`. -/
def envRoutesUnsupported : StaticEnv :=
  { fsExists := fun _ => true, fsIsFile := fun _ => true,
    rowCount := fun _ => 7, supported := fun f => !(f == "routes.txt"),
    clearErr := fun _ => none, convErr := fun _ => none,
    duration := fun _ => 0 }

/-- The realtime event recorded over `rtFeedEnv` with dataset `TFI` and
one second elapsed. -/
def evRTW : String × AttrValue :=
  ("REALTIME_DATABASE_UPDATED",
    .obj [("dataset", .str "TFI"), ("total_trips", .nat 3),
          ("total_stop_times", .nat 5), ("time_taken(s)", .nat 1)])

/-- Realtime environment whose fetch returned no usable data. -/
def rtNullEnv : RTEnv :=
  { getData := none, stopTimesCount := 0, tripsCount := 0 }

/-- Realtime environment with a decoded three-entity feed. -/
def rtFeedEnv : RTEnv :=
  { getData := some { entity := [(), (), ()] }, stopTimesCount := 5, tripsCount := 3 }

/-- No branch of the loop body touches the recorded events. -/
lemma stepFile_events (env : StaticEnv) (dir : String) (s : StStatic) (file : String) :
    (stepFile env dir s file).1.events = s.events := by
  unfold stepFile
  split
  · rfl
  · split
    · rfl
    · split
      · rfl
      · split <;> rfl

/-- The per-file loop records no events. -/
lemma runLoop_events (env : StaticEnv) (dir : String) (fs : List String) (s : StStatic) :
    (runLoop env dir s fs).1.events = s.events := by
  induction fs generalizing s with
  | nil => rfl
  | cons file fs ih =>
    rcases hs : stepFile env dir s file with ⟨s', r⟩
    have he : s'.events = s.events := by
      have h := stepFile_events env dir s file
      rw [hs] at h
      exact h
    cases r with
    | none => simpa [runLoop, hs, he] using ih s'
    | some m => simp [runLoop, hs, he]

/-- A skipped file (absent or unsupported) adds exactly one errored report
entry and raises nothing. -/
lemma stepFile_skip (env : StaticEnv) (dir : String) (s : StStatic) (file : String)
    (h : stepSkips env dir file = true) :
    ∃ e : FileReportEntry, e.err.isSome = true ∧
      stepFile env dir s file =
        ({ s with totals := s.totals ++ [(baseName file, e)] }, none) := by
  by_cases h1 : (env.fsExists dir && env.fsIsFile (file_probe dir file)) = true
  · have h2 : env.supported file = false := by
      cases hsup : env.supported file with
      | false => rfl
      | true => simp [stepSkips, h1, hsup] at h
    exact ⟨{ time_taken_s := 0, row_count := env.rowCount file,
             err := some ("File " ++ file ++ " does not have a supported importer.") },
           rfl, by simp [stepFile, h1, h2]⟩
  · have h1' : (env.fsExists dir && env.fsIsFile (file_probe dir file)) = false := by
      simpa using h1
    exact ⟨{ time_taken_s := 0, row_count := 0,
             err := some ("File " ++ file ++ " does not exist.") },
           rfl, by simp [stepFile, h1']⟩

/-- When neither `clear_table()` nor `import_data()` raises, the loop body
raises nothing and adds exactly one report entry keyed by the base name. -/
lemma stepFile_no_raise (env : StaticEnv) (dir : String) (s : StStatic) (file : String)
    (h : stepRaises env dir file = false) :
    ∃ e : FileReportEntry,
      (stepFile env dir s file).2 = none ∧
      (stepFile env dir s file).1.totals = s.totals ++ [(baseName file, e)] := by
  by_cases h1 : (env.fsExists dir && env.fsIsFile (file_probe dir file)) = true
  · by_cases h2 : env.supported file = true
    · rcases hc : env.clearErr file with _ | m
      · rcases hv : env.convErr file with _ | m
        · exact ⟨{ time_taken_s := env.duration file, row_count := env.rowCount file,
                   err := none },
                 by simp [stepFile, h1, h2, hc, hv]⟩
        · simp [stepRaises, h1, h2, hc, hv] at h
      · simp [stepRaises, h1, h2, hc] at h
    · have h2' : env.supported file = false := by simpa using h2
      exact ⟨{ time_taken_s := 0, row_count := env.rowCount file,
               err := some ("File " ++ file ++ " does not have a supported importer.") },
             by simp [stepFile, h1, h2']⟩
  · have h1' : (env.fsExists dir && env.fsIsFile (file_probe dir file)) = false := by
      simpa using h1
    exact ⟨{ time_taken_s := 0, row_count := 0,
             err := some ("File " ++ file ++ " does not exist.") },
           by simp [stepFile, h1']⟩

/-- When no file in the remaining list lets an exception escape, the loop
finishes normally and appends one entry per file, in order. -/
lemma runLoop_no_raise (env : StaticEnv) (dir : String) (fs : List String) (s : StStatic)
    (h : ∀ f ∈ fs, stepRaises env dir f = false) :
    (runLoop env dir s fs).2 = none ∧
    (runLoop env dir s fs).1.totals.map Prod.fst =
      s.totals.map Prod.fst ++ fs.map baseName := by
  induction fs generalizing s with
  | nil => simp [runLoop]
  | cons file fs ih =>
    obtain ⟨e, h2, h3⟩ := stepFile_no_raise env dir s file (h file (by simp))
    rcases hs : stepFile env dir s file with ⟨s', r⟩
    rw [hs] at h2 h3
    cases r with
    | some m => exact absurd h2 (by simp)
    | none =>
      obtain ⟨ih1, ih2⟩ := ih s' (fun f hf => h f (by simp [hf]))
      refine ⟨by simpa [runLoop, hs] using ih1, ?_⟩
      rw [show (runLoop env dir s (file :: fs)) = runLoop env dir s' fs from by
        simp [runLoop, hs]]
      rw [ih2, h3]
      simp

/-- When every file in the remaining list is skipped, the loop finishes
normally, never assigns `finish`, never updates the running total, and
every entry it appends carries an error. -/
lemma runLoop_skip (env : StaticEnv) (dir : String) (fs : List String) (s : StStatic)
    (h : ∀ f ∈ fs, stepSkips env dir f = true) :
    (runLoop env dir s fs).2 = none ∧
    (runLoop env dir s fs).1.finish = s.finish ∧
    (runLoop env dir s fs).1.total_time = s.total_time ∧
    ∀ kv ∈ (runLoop env dir s fs).1.totals, kv ∈ s.totals ∨ kv.2.err.isSome = true := by
  induction fs generalizing s with
  | nil => exact ⟨rfl, rfl, rfl, fun kv hkv => Or.inl hkv⟩
  | cons file fs ih =>
    obtain ⟨e, he, hs'⟩ := stepFile_skip env dir s file (h file (by simp))
    have hrun : runLoop env dir s (file :: fs) =
        runLoop env dir { s with totals := s.totals ++ [(baseName file, e)] } fs := by
      simp [runLoop, hs']
    obtain ⟨ih1, ih2, ih3, ih4⟩ :=
      ih { s with totals := s.totals ++ [(baseName file, e)] }
        (fun f hf => h f (by simp [hf]))
    rw [hrun]
    refine ⟨ih1, ih2, ih3, fun kv hkv => ?_⟩
    rcases ih4 kv hkv with hmem | herr
    · rcases List.mem_append.mp hmem with hmem' | hmem'
      · exact Or.inl hmem'
      · right
        rcases List.mem_singleton.mp hmem' with rfl
        exact he
    · exact Or.inr herr

/-- C2: whenever `get_data()` returns null, the realtime caller performs
zero table mutations, records no event, and returns without error. -/
theorem realtime_null_data_no_mutation (env : RTEnv) (dataset : String)
    (elapsed : Nat) (h : env.getData = none) :
    runRealtime env dataset elapsed = ({ trace := [], events := [] }, none) := by
  simp [runRealtime, h]

/-- Witness for C2: a concrete run whose fetch returned null. -/
theorem realtime_null_data_no_mutation_instance :
    runRealtime rtNullEnv "TFI" 1 = ({ trace := [], events := [] }, none) :=
  realtime_null_data_no_mutation rtNullEnv "TFI" 1 rfl

/-- C7: in every realtime run that persists data, `clear_table_stop_trip()`
is invoked exactly once and before any `import_stop_times` or
`import_trips` insertion. -/
theorem realtime_clear_once_before_inserts (env : RTEnv) (dataset : String)
    (elapsed : Nat) (f : Feed) (h : env.getData = some f) :
    (runRealtime env dataset elapsed).1.trace.count Op.clearStopTrip = 1 ∧
    (runRealtime env dataset elapsed).1.trace.filter Op.isRealtimeWrite =
      [Op.clearStopTrip, Op.importStopTimes, Op.importTrips] := by
  rw [show runRealtime env dataset elapsed =
      ({ trace := [Op.clearStopTrip, Op.importStopTimes, Op.importTrips,
                   Op.recordEvent "REALTIME_DATABASE_UPDATED"],
         events := [("REALTIME_DATABASE_UPDATED",
           .obj [("dataset", .str dataset),
                 ("total_trips", .nat env.tripsCount),
                 ("total_stop_times", .nat env.stopTimesCount),
                 ("time_taken(s)", .nat elapsed)])] }, none) from by
    simp [runRealtime, h]]
  exact ⟨rfl, rfl⟩

/-- Witness for C7: a concrete run over a decoded three-entity feed. -/
theorem realtime_clear_once_before_inserts_instance :
    (runRealtime rtFeedEnv "TFI" 1).1.trace.count Op.clearStopTrip = 1 ∧
    (runRealtime rtFeedEnv "TFI" 1).1.trace.filter Op.isRealtimeWrite =
      [Op.clearStopTrip, Op.importStopTimes, Op.importTrips] :=
  realtime_clear_once_before_inserts rtFeedEnv "TFI" 1 { entity := [(), (), ()] } rfl

/-- C9: when the directory argument does not name an existing directory,
`gtfs_directory_validator` returns `None` and `importgtfs` raises an
`AttributeError` calling `split` on it, before any prompt, table mutation,
report entry, or event (the result is the same for every prompt response
and importer environment). -/
theorem invalid_directory_aborts (fsIsDir : String → Bool) (env : StaticEnv)
    (d response : String) (hne : ¬d = "") (hdir : fsIsDir d = false) :
    gtfs_directory_validator fsIsDir (some d) = none ∧
    importgtfs fsIsDir env (some d) response =
      (initStatic, some "AttributeError: NoneType object has no attribute split") := by
  have hv : gtfs_directory_validator fsIsDir (some d) = none := by
    simp [gtfs_directory_validator, hne, hdir]
  exact ⟨hv, by simp [importgtfs, hv]⟩

/-- Witness for C9: a concrete missing directory. -/
theorem invalid_directory_aborts_instance :
    gtfs_directory_validator (fun _ => false) (some "/no/such/dir") = none ∧
    importgtfs (fun _ => false) envQuiet (some "/no/such/dir") "y" =
      (initStatic, some "AttributeError: NoneType object has no attribute split") :=
  invalid_directory_aborts (fun _ => false) envQuiet "/no/such/dir" "y"
    (by decide) rfl

/-- C6: `get_importer_for_file` on a filename outside the fixed table of
eight supported static files fails with `UnsupportedFileType` (and returns
an importer on each of the eight); the caller catches the failure, records
a report entry for that file and continues with the remaining files. -/
theorem unsupported_file_recoverable :
    (∀ fname, fname ∉ files_to_import →
      get_importer_for_file fname = .error "UnsupportedFileType") ∧
    (∀ fname ∈ files_to_import, get_importer_for_file fname = .ok fname) ∧
    (∀ (env : StaticEnv) (dir : String) (s : StStatic) (file : String)
        (fs : List String),
      env.fsExists dir = true → env.fsIsFile (file_probe dir file) = true →
      env.supported file = false →
      runLoop env dir s (file :: fs) =
        runLoop env dir
          { s with totals := s.totals ++
              [(baseName file,
                { time_taken_s := 0, row_count := env.rowCount file,
                  err := some ("File " ++ file ++
                    " does not have a supported importer.") })] } fs) := by
  refine ⟨fun fname hf => by simp [get_importer_for_file, hf],
          fun fname hf => by simp [get_importer_for_file, hf], ?_⟩
  intro env dir s file fs h1 h2 h3
  simp [runLoop, stepFile, h1, h2, h3]

/-- Witness for C6: the unsupported `fares.txt`, the supported
`agency.txt`, and a run skipping an undispatchable `routes.txt` and
continuing with `stops.txt`. -/
theorem unsupported_file_recoverable_instance :
    get_importer_for_file "fares.txt" = .error "UnsupportedFileType" ∧
    get_importer_for_file "agency.txt" = .ok "agency.txt" ∧
    runLoop envRoutesUnsupported "./gtfs_data/TFI/" initStatic
        ["routes.txt", "stops.txt"] =
      runLoop envRoutesUnsupported "./gtfs_data/TFI/"
        { initStatic with totals := initStatic.totals ++
            [(baseName "routes.txt",
              { time_taken_s := 0, row_count := 7,
                err := some ("File " ++ "routes.txt" ++
                  " does not have a supported importer.") })] } ["stops.txt"] :=
  ⟨unsupported_file_recoverable.1 "fares.txt" (by decide),
   unsupported_file_recoverable.2.1 "agency.txt" (by decide),
   unsupported_file_recoverable.2.2 envRoutesUnsupported "./gtfs_data/TFI/"
     initStatic "routes.txt" ["stops.txt"] rfl rfl (by decide)⟩

/-- C1 counterexample: with every file present and supported but
`import_data()` raising a `RowConversionError` on `agency.txt`, the table
was already cleared, yet the run aborts with the uncaught exception, no
report entry is recorded for any file, and no event is emitted — the error
is not caught at the orchestrator boundary and the remaining files are
never attempted. -/
theorem clear_import_errors_uncaught_cex :
    (runStatic envAgencyRowErr "./gtfs_data/TFI/" "TFI").2 =
      some "RowConversionError" ∧
    (runStatic envAgencyRowErr "./gtfs_data/TFI/" "TFI").1.totals = [] ∧
    (runStatic envAgencyRowErr "./gtfs_data/TFI/" "TFI").1.events = [] ∧
    (runStatic envAgencyRowErr "./gtfs_data/TFI/" "TFI").1.trace =
      [Op.clearTable "agency.txt", Op.importData "agency.txt"] :=
  ⟨by decide, by decide, rfl, by decide⟩

/-- C1 (amended): an error raised by `clear_table()` or `import_data()` is
not caught: the loop iteration records no report entry for that file, the
exception escapes the loop, `importgtfs` re-raises it with the loop state
unchanged, the remaining files are never attempted, and no event is
recorded (the loop itself never records events). -/
theorem clear_import_errors_uncaught :
    (∀ (env : StaticEnv) (dir : String) (s : StStatic) (file : String)
        (fs : List String) (m : String),
      (env.fsExists dir && env.fsIsFile (file_probe dir file)) = true →
      env.supported file = true →
      (env.clearErr file = some m ∨
        (env.clearErr file = none ∧ env.convErr file = some m)) →
      (runLoop env dir s (file :: fs)).1.totals = s.totals ∧
      (runLoop env dir s (file :: fs)).2 = some m) ∧
    (∀ (env : StaticEnv) (dir dataset m : String),
      (runLoop env dir initStatic files_to_import).2 = some m →
      runStatic env dir dataset =
        ((runLoop env dir initStatic files_to_import).1, some m)) ∧
    (∀ (env : StaticEnv) (dir : String) (s : StStatic) (fs : List String),
      (runLoop env dir s fs).1.events = s.events) := by
  refine ⟨?_, ?_, fun env dir s fs => runLoop_events env dir fs s⟩
  · intro env dir s file fs m h1 h2 h3
    rcases h3 with hc | ⟨hc, hv⟩
    · constructor <;> simp [runLoop, stepFile, h1, h2, hc]
    · constructor <;> simp [runLoop, stepFile, h1, h2, hc, hv]
  · intro env dir dataset m h
    rcases hrl : runLoop env dir initStatic files_to_import with ⟨s, r⟩
    rw [hrl] at h
    cases r with
    | none => simp at h
    | some m' =>
      obtain rfl : m' = m := by simpa using h
      simp [runStatic, hrl]

/-- Witness for C1 (amended): a concrete iteration whose `import_data()`
raises, recording nothing and aborting the loop. -/
theorem clear_import_errors_uncaught_instance :
    (runLoop envAgencyRowErr "./gtfs_data/TFI/" initStatic
        ["agency.txt", "calendar.txt"]).1.totals = initStatic.totals ∧
    (runLoop envAgencyRowErr "./gtfs_data/TFI/" initStatic
        ["agency.txt", "calendar.txt"]).2 = some "RowConversionError" :=
  clear_import_errors_uncaught.1 envAgencyRowErr "./gtfs_data/TFI/" initStatic
    "agency.txt" ["calendar.txt"] "RowConversionError" rfl rfl
    (Or.inr ⟨rfl, by decide⟩)

/-- C3 counterexample: with `clear_table()` raising on `agency.txt`, the
run attempts only the first file (its clear is the whole trace), records
no report entries, performs zero report-emission steps, and aborts — so
not every run processes all eight files and then emits the report. -/
theorem eight_files_then_report_cex :
    (runStatic envAgencyClearErr "./gtfs_data/TFI/" "TFI").1.totals = [] ∧
    (runStatic envAgencyClearErr "./gtfs_data/TFI/" "TFI").1.events.length = 0 ∧
    (runStatic envAgencyClearErr "./gtfs_data/TFI/" "TFI").1.trace =
      [Op.clearTable "agency.txt"] ∧
    (runStatic envAgencyClearErr "./gtfs_data/TFI/" "TFI").2 =
      some "DatabaseError" :=
  ⟨by decide, rfl, by decide, by decide⟩

/-- C3 (amended): every static run in which no error escapes
`clear_table()` or `import_data()` processes exactly the eight fixed files,
each exactly once, in the fixed order, and then performs exactly one
report-emission step. -/
theorem eight_files_then_report_when_no_error (env : StaticEnv)
    (dir dataset : String)
    (h : ∀ f ∈ files_to_import, stepRaises env dir f = false) :
    (runStatic env dir dataset).1.totals.map Prod.fst =
      ["agency", "calendar", "calendar_dates", "routes", "stops", "trips",
       "stop_times", "shapes"] ∧
    (runStatic env dir dataset).1.events.map Prod.fst =
      ["GTFS_DATABASE_UPDATED"] := by
  obtain ⟨h1, h2⟩ := runLoop_no_raise env dir files_to_import initStatic h
  have hev := runLoop_events env dir files_to_import initStatic
  rcases hrl : runLoop env dir initStatic files_to_import with ⟨s, r⟩
  rw [hrl] at h1 h2 hev
  cases r with
  | some m => simp at h1
  | none =>
    have hbase : files_to_import.map baseName =
        ["agency", "calendar", "calendar_dates", "routes", "stops", "trips",
         "stop_times", "shapes"] := by decide
    have htot : s.totals.map Prod.fst =
        ["agency", "calendar", "calendar_dates", "routes", "stops", "trips",
         "stop_times", "shapes"] := by
      rw [h2, hbase]; simp [initStatic]
    have hev' : s.events = [] := by simpa [initStatic] using hev
    cases hf : s.finish <;> simp [runStatic, hrl, hf, htot, hev']

/-- Witness for C3 (amended): a run in which every file is skipped raises
nothing, so all eight entries and the single event are produced. -/
theorem eight_files_then_report_when_no_error_instance :
    (runStatic envQuiet "./gtfs_data/TFI/" "TFI").1.totals.map Prod.fst =
      ["agency", "calendar", "calendar_dates", "routes", "stops", "trips",
       "stop_times", "shapes"] ∧
    (runStatic envQuiet "./gtfs_data/TFI/" "TFI").1.events.map Prod.fst =
      ["GTFS_DATABASE_UPDATED"] :=
  eight_files_then_report_when_no_error envQuiet "./gtfs_data/TFI/" "TFI"
    (by decide)

/-- C5 counterexample: in a directory containing only `agency.txt`, seven
other files (not six) receive a skipped entry — the fixed list has eight
files, so one present file leaves seven absent ones. -/
theorem only_agency_skip_count_cex :
    ((runStatic envOnlyAgency "./gtfs_data/TFI/" "TFI").1.totals.filter
        (fun kv => kv.2.err.isSome)).length = 7 ∧
    ¬((runStatic envOnlyAgency "./gtfs_data/TFI/" "TFI").1.totals.filter
        (fun kv => kv.2.err.isSome)).length = 6 :=
  ⟨by decide, by decide⟩

/-- C5 (amended): every absent file gets a report entry with the
"does not exist" reason, row count 0 and zero recorded time, and the run
continues with the next file; in a directory containing only `agency.txt`
all other seven files are skipped that way. -/
theorem absent_files_skipped :
    (∀ (env : StaticEnv) (dir : String) (s : StStatic) (file : String)
        (fs : List String),
      (env.fsExists dir && env.fsIsFile (file_probe dir file)) = false →
      runLoop env dir s (file :: fs) =
        runLoop env dir
          { s with totals := s.totals ++
              [(baseName file,
                { time_taken_s := 0, row_count := 0,
                  err := some ("File " ++ file ++ " does not exist.") })] } fs) ∧
    (runStatic envOnlyAgency "./gtfs_data/TFI/" "TFI").1.totals =
      [("agency", { time_taken_s := 0, row_count := 2, err := none }),
       ("calendar", { time_taken_s := 0, row_count := 0, err := some "File calendar.txt does not exist." }),
       ("calendar_dates", { time_taken_s := 0, row_count := 0, err := some "File calendar_dates.txt does not exist." }),
       ("routes", { time_taken_s := 0, row_count := 0, err := some "File routes.txt does not exist." }),
       ("stops", { time_taken_s := 0, row_count := 0, err := some "File stops.txt does not exist." }),
       ("trips", { time_taken_s := 0, row_count := 0, err := some "File trips.txt does not exist." }),
       ("stop_times", { time_taken_s := 0, row_count := 0, err := some "File stop_times.txt does not exist." }),
       ("shapes", { time_taken_s := 0, row_count := 0, err := some "File shapes.txt does not exist." })] := by
  refine ⟨?_, by decide⟩
  intro env dir s file fs h
  simp [runLoop, stepFile, h]

/-- Witness for C5 (amended): a concrete absent file is skipped and the
loop moves on. -/
theorem absent_files_skipped_instance :
    runLoop envQuiet "./gtfs_data/TFI/" initStatic ["routes.txt", "stops.txt"] =
      runLoop envQuiet "./gtfs_data/TFI/"
        { initStatic with totals := initStatic.totals ++
            [(baseName "routes.txt",
              { time_taken_s := 0, row_count := 0,
                err := some ("File " ++ "routes.txt" ++ " does not exist.") })] }
        ["stops.txt"] :=
  absent_files_skipped.1 envQuiet "./gtfs_data/TFI/" initStatic
    "routes.txt" ["stops.txt"] rfl

/-- Every per-file attribute dict has the success keys or the success keys
plus `error`, in insertion order. -/
lemma mkEntryVal_keys (e : FileReportEntry) : entryKeysOk (mkEntryVal e) := by
  cases he : e.err <;> simp [entryKeysOk, mkEntryVal, AttrValue.objKeys, he]

/-- C4: every event recorded by a static run carries type
`GTFS_DATABASE_UPDATED` and an attribute map with keys `dataset`, `totals`
and `total_time_taken(s)`, the `totals` value being a per-file-base-name
map whose entries have keys `time_taken(s)` and `row_count` plus an
optional `error`; every event recorded by a realtime run carries type
`REALTIME_DATABASE_UPDATED` and an attribute map with keys `dataset`,
`total_trips`, `total_stop_times` and `time_taken(s)`. -/
theorem event_attribute_shape :
    (∀ (env : StaticEnv) (dir dataset : String) (ev : String × AttrValue),
      ev ∈ (runStatic env dir dataset).1.events →
      ev.1 = "GTFS_DATABASE_UPDATED" ∧
      ev.2.objKeys = ["dataset", "totals", "total_time_taken(s)"] ∧
      ∃ t, ev.2.find "totals" = some (.obj t) ∧ ∀ kv ∈ t, entryKeysOk kv.2) ∧
    (∀ (env : RTEnv) (dataset : String) (elapsed : Nat) (ev : String × AttrValue),
      ev ∈ (runRealtime env dataset elapsed).1.events →
      ev.1 = "REALTIME_DATABASE_UPDATED" ∧
      ev.2.objKeys = ["dataset", "total_trips", "total_stop_times", "time_taken(s)"]) := by
  constructor
  · intro env dir dataset ev hev
    have hev0 := runLoop_events env dir files_to_import initStatic
    rcases hrl : runLoop env dir initStatic files_to_import with ⟨s, r⟩
    rw [hrl] at hev0
    have hse : s.events = [] := by simpa [initStatic] using hev0
    cases r with
    | some m =>
      rw [show (runStatic env dir dataset).1.events = [] from by
        simp [runStatic, hrl, hse]] at hev
      exact absurd hev (by simp)
    | none =>
      cases hf : s.finish with
      | none =>
        rw [show (runStatic env dir dataset).1.events =
            [("GTFS_DATABASE_UPDATED",
              mkStaticAttrs dataset s.totals s.total_time)] from by
          simp [runStatic, hrl, hf, hse]] at hev
        rcases List.mem_singleton.mp hev with rfl
        refine ⟨rfl, rfl, ⟨_, rfl, ?_⟩⟩
        intro kv hkv
        obtain ⟨⟨k, e⟩, -, rfl⟩ := List.mem_map.mp hkv
        exact mkEntryVal_keys e
      | some x =>
        rw [show (runStatic env dir dataset).1.events =
            [("GTFS_DATABASE_UPDATED",
              mkStaticAttrs dataset s.totals s.total_time)] from by
          simp [runStatic, hrl, hf, hse]] at hev
        rcases List.mem_singleton.mp hev with rfl
        refine ⟨rfl, rfl, ⟨_, rfl, ?_⟩⟩
        intro kv hkv
        obtain ⟨⟨k, e⟩, -, rfl⟩ := List.mem_map.mp hkv
        exact mkEntryVal_keys e
  · intro env dataset elapsed ev hev
    cases hg : env.getData with
    | none =>
      rw [show (runRealtime env dataset elapsed).1.events = [] from by
        simp [runRealtime, hg]] at hev
      exact absurd hev (by simp)
    | some f =>
      rw [show (runRealtime env dataset elapsed).1.events =
          [("REALTIME_DATABASE_UPDATED",
            .obj [("dataset", .str dataset),
                  ("total_trips", .nat env.tripsCount),
                  ("total_stop_times", .nat env.stopTimesCount),
                  ("time_taken(s)", .nat elapsed)])] from by
        simp [runRealtime, hg]] at hev
      rcases List.mem_singleton.mp hev with rfl
      exact ⟨rfl, rfl⟩

/-- Witness for C4: the event of a concrete realtime run. -/
theorem event_attribute_shape_instance :
    evRTW.1 = "REALTIME_DATABASE_UPDATED" ∧
    evRTW.2.objKeys = ["dataset", "total_trips", "total_stop_times", "time_taken(s)"] :=
  event_attribute_shape.2 rtFeedEnv "TFI" 1 evRTW (List.mem_cons_self _ _)

/-- C8: in every static run where no file reaches the successful-import
branch (each of the eight is absent or unsupported), the
`GTFS_DATABASE_UPDATED` event is still recorded with the all-skipped
totals, and the command then raises the unbound-local error printing the
final elapsed time, because `finish` is only assigned on the success
path. -/
theorem all_skipped_unbound_finish (env : StaticEnv) (dir dataset : String)
    (h : ∀ f ∈ files_to_import, stepSkips env dir f = true) :
    (runStatic env dir dataset).2 = some unboundFinishMsg ∧
    (runStatic env dir dataset).1.events =
      [("GTFS_DATABASE_UPDATED",
        mkStaticAttrs dataset (runStatic env dir dataset).1.totals
          (runStatic env dir dataset).1.total_time)] ∧
    ∀ kv ∈ (runStatic env dir dataset).1.totals, kv.2.err.isSome = true := by
  obtain ⟨h1, h2, h3, h4⟩ := runLoop_skip env dir files_to_import initStatic h
  have hev := runLoop_events env dir files_to_import initStatic
  rcases hrl : runLoop env dir initStatic files_to_import with ⟨s, r⟩
  rw [hrl] at h1 h2 h3 h4 hev
  cases r with
  | some m => simp at h1
  | none =>
    have hf : s.finish = none := by simpa [initStatic] using h2
    have hse : s.events = [] := by simpa [initStatic] using hev
    have hall : ∀ kv ∈ s.totals, kv.2.err.isSome = true := by
      intro kv hkv
      rcases h4 kv hkv with hmem | herr
      · simp [initStatic] at hmem
      · exact herr
    have hrs : runStatic env dir dataset =
        ({ s with
            events := s.events ++
              [("GTFS_DATABASE_UPDATED", mkStaticAttrs dataset s.totals s.total_time)],
            trace := s.trace ++ [Op.recordEvent "GTFS_DATABASE_UPDATED"] },
         some unboundFinishMsg) := by
      simp [runStatic, hrl, hf]
    rw [hrs]
    exact ⟨rfl, by simp [hse], hall⟩

/-- Witness for C8: the run in which every probe fails. -/
theorem all_skipped_unbound_finish_instance :
    (runStatic envQuiet "./gtfs_data/TFI/" "TFI").2 = some unboundFinishMsg ∧
    (runStatic envQuiet "./gtfs_data/TFI/" "TFI").1.events =
      [("GTFS_DATABASE_UPDATED",
        mkStaticAttrs "TFI" (runStatic envQuiet "./gtfs_data/TFI/" "TFI").1.totals
          (runStatic envQuiet "./gtfs_data/TFI/" "TFI").1.total_time)] :=
  ⟨(all_skipped_unbound_finish envQuiet "./gtfs_data/TFI/" "TFI" (by decide)).1,
   (all_skipped_unbound_finish envQuiet "./gtfs_data/TFI/" "TFI" (by decide)).2.1⟩

/-- C10: the dataset is the second-to-last `/`-separated segment of the
directory string (the default `./gtfs_data/TFI/` yields `TFI`); per-file
paths are plain string concatenation of directory and filename; a
directory argument without a trailing `/` derives the parent directory
name as the dataset and probes malformed paths. -/
theorem dataset_from_dir_segments :
    (∀ d, 2 ≤ (dirSegments d).length →
      dataset_of_dir d = (dirSegments d).get? ((dirSegments d).length - 2)) ∧
    dataset_of_dir "./gtfs_data/TFI/" = some "TFI" ∧
    dataset_of_dir "./gtfs_data/TFI" = some "gtfs_data" ∧
    (∀ dir file, file_probe dir file = dir ++ file) ∧
    file_probe "./gtfs_data/TFI" "agency.txt" = "./gtfs_data/TFIagency.txt" ∧
    (∀ (fsIsDir : String → Bool) (env : StaticEnv),
      fsIsDir "./gtfs_data/TFI/" = true →
      importgtfs fsIsDir env (some "./gtfs_data/TFI/") "y" =
        runStatic env "./gtfs_data/TFI/" "TFI") := by
  refine ⟨?_, by decide, by decide, fun dir file => rfl, by decide, ?_⟩
  · intro d h
    simp only [dataset_of_dir]
    rw [dif_pos h,
      List.get?_eq_get (show (dirSegments d).length - 2 < (dirSegments d).length by
        omega)]
  · intro fsIsDir env hf
    have hval : gtfs_directory_validator fsIsDir (some "./gtfs_data/TFI/") =
        some "./gtfs_data/TFI/" := by
      simp [gtfs_directory_validator, hf]
    simp only [importgtfs, hval]
    rw [show dataset_of_dir "./gtfs_data/TFI/" = some "TFI" from by decide]
    simp

/-- Witness for C10: a three-segment directory string and a concrete
confirmed run over the default directory. -/
theorem dataset_from_dir_segments_instance :
    dataset_of_dir "a/b/c" =
      (dirSegments "a/b/c").get? ((dirSegments "a/b/c").length - 2) ∧
    importgtfs (fun _ => true) envQuiet (some "./gtfs_data/TFI/") "y" =
      runStatic envQuiet "./gtfs_data/TFI/" "TFI" :=
  ⟨dataset_from_dir_segments.1 "a/b/c" (by decide),
   dataset_from_dir_segments.2.2.2.2.2 (fun _ => true) envQuiet rfl⟩

end SimplyTransport
